import Mathlib

/-!
Verification development for the browser-side event-management client.

The definitions below are a shallow embedding of the session/authentication
slice of the repository:

* `responseErrorHandler` embeds the response interceptor of
  src/frontend/src/services (the axios instance file): classification of
  failures, the 401 clearing-and-redirect side effect, and the normalized
  rejection shape.
* `requestAccess`, `getCurrentMember`, `logoutService`, `checkAuth` embed
  src/frontend/src/services/authService.js.
* `initializeAuth`, `login`, `logout`, `refreshMember` embed the
  AuthProvider of the auth context file packed with
  src/frontend/src/utils/constants.js.
* `AdminRoute` embeds the admin route guard packed with
  src/frontend/src/components/payment/ContactForm.jsx.
* `formatPhoneNumber` embeds src/frontend/src/utils/validators.js.
* `API_ENDPOINTS` / `API_ENDPOINTS_V2` embed the two endpoint maps found in
  src/frontend/src/utils/constants.js and the second constants version packed
  with src/frontend/src/utils/helpers.js.

Browser effects are made explicit: cookie and local storage are fields of a
`Browser` record, and an assignment to window.location.href is recorded as a
pending full-page navigation (`pendingNav`), consumed when the page reloads.
Server and transport behaviour is an input (`ApiResult`): each operation takes
the outcome the backend produced for its call.
-/

namespace EventClient

/-- Member profile as cached client-side (JSON object in local storage).
Fields that a JS object may simply lack are modelled as `Option`. -/
structure Member where
  full_name : String
  email : Option String
  membership_tier : Option String
  membership_number : Option String
  has_logged_in : Bool
deriving DecidableEq

/-- The JSON body of an error response; the interceptor only reads its
optional `detail` field. -/
structure ResponseBody where
  detail : Option String
deriving DecidableEq

/-- An HTTP error response as the transport hands it to the interceptor. -/
structure HttpResponse where
  status : Nat
  data : ResponseBody
deriving DecidableEq

/-- The native transport (axios) error object: `url` is the endpoint the
request was sent to, `response` is present when the server answered with an
error status, `request` is true when a request went out but no response
arrived, and `message` is the native error message (possibly empty). -/
structure AxiosError where
  url : String
  response : Option HttpResponse
  request : Bool
  message : String
deriving DecidableEq

/-- The normalized rejection shape the interceptor builds:
status, message, data. `data` is absent for network and
request-construction errors. -/
structure NormalizedError where
  status : Nat
  message : String
  data : Option ResponseBody
deriving DecidableEq

/-- What a rejection handler can pass on: either the normalized shape or the
native transport error (the request interceptor passes the native error on;
the response interceptor is claimed never to). -/
inductive InterceptResult where
  | normalized (e : NormalizedError)
  | native (e : AxiosError)
deriving DecidableEq

/-- Durable browser-side state plus the pending-navigation register:
`cookie` is the auth_token cookie, `stored` the member_data local-storage
record, `pendingNav` the URL last assigned to window.location.href and not
yet loaded. -/
structure Browser where
  cookie : Option String
  stored : Option Member
  pendingNav : Option String
deriving DecidableEq

/-- In-memory React session state held by the AuthProvider. -/
structure Session where
  member : Option Member
  loading : Bool
  isAuthenticated : Bool
deriving DecidableEq

/-- The whole client state: browser-persisted state plus the in-memory
session. -/
structure AppState where
  browser : Browser
  session : Session
deriving DecidableEq

/-- JS `a || b` on strings: the empty string is falsy. -/
def jsOrStr (a b : String) : String := if a = "" then b else a

/-- JS `o.detail || b` where the field may be absent (undefined) or empty. -/
def jsOrOpt (a : Option String) (b : String) : String :=
  match a with
  | some s => jsOrStr s b
  | none => b

/-- The response interceptor error branch. Embeds the error handler of
api.interceptors.response: on a 401 response it removes the token cookie and
the cached member and assigns window.location.href to the access page; every
branch rejects with the normalized shape. The endpoint `e.url` is never
inspected. -/
def responseErrorHandler (b : Browser) (e : AxiosError) : Browser × InterceptResult :=
  match e.response with
  | some r =>
      let b' :=
        if r.status = 401 then
          { b with cookie := none, stored := none, pendingNav := some "/access" }
        else b
      (b', .normalized
        { status := r.status
          message := jsOrOpt r.data.detail "An unexpected error occurred"
          data := some r.data })
  | none =>
      if e.request then
        (b, .normalized
          { status := 0
            message := "Network error. Please check your connection."
            data := none })
      else
        (b, .normalized
          { status := 0
            message := jsOrStr e.message "An error occurred"
            data := none })

/-- The request interceptor error branch rejects with the native error
unchanged. -/
def requestErrorHandler (e : AxiosError) : InterceptResult := .native e

/-- The `message` property read off a rejection by callers
(JS property access works on either shape). -/
def errMessage : InterceptResult → String
  | .normalized ne => ne.message
  | .native e => e.message

/-- Whether a transport error is a response with status 401. -/
def is401 (e : AxiosError) : Bool :=
  match e.response with
  | some r => r.status == 401
  | none => false

/-- The outcome the backend/transport produced for one API call: parsed
success data, or the transport error handed to the interceptor. -/
inductive ApiResult (α : Type) where
  | ok (a : α)
  | err (e : AxiosError)

/-- The body of a successful request-access response. -/
structure LoginData where
  access_token : String
  member : Member
deriving DecidableEq

/-- authService.requestAccess: posts the email, then stores the returned
token in the cookie (30-day expiry) and the returned member in local
storage; rethrows any rejection unchanged. -/
def requestAccess (b : Browser) (_email : String) (out : ApiResult LoginData) :
    Browser × Except InterceptResult LoginData :=
  match out with
  | .ok d => ({ b with cookie := some d.access_token, stored := some d.member }, .ok d)
  | .err e =>
      let p := responseErrorHandler b e
      (p.1, .error p.2)

/-- authService.getCurrentMember: fetches /api/auth/me and overwrites the
stored member; rethrows any rejection unchanged. -/
def getCurrentMember (b : Browser) (out : ApiResult Member) :
    Browser × Except InterceptResult Member :=
  match out with
  | .ok m => ({ b with stored := some m }, .ok m)
  | .err e =>
      let p := responseErrorHandler b e
      (p.1, .error p.2)

/-- authService.logout: best-effort posts the logout endpoint (a rejection is
swallowed, after the interceptor ran), then in a finally block removes the
cookie and the stored member. Never throws. -/
def logoutService (b : Browser) (out : ApiResult Unit) : Browser :=
  let b1 :=
    match out with
    | .ok _ => b
    | .err e => (responseErrorHandler b e).1
  { b1 with cookie := none, stored := none }

/-- authService.isAuthenticated: true exactly when the token cookie exists. -/
def checkAuth (b : Browser) : Bool := b.cookie.isSome

/-- The AuthProvider state at mount: member null, loading true,
isAuthenticated false. -/
def bootSession : Session :=
  { member := none, loading := true, isAuthenticated := false }

/-- AuthProvider.initializeAuth: if the cookie exists, trust a stored member
when present, otherwise fetch the member from the backend; any failure
clears the in-memory session; loading always ends false. -/
def initializeAuth (s : AppState) (meOut : ApiResult Member) : AppState :=
  if checkAuth s.browser then
    match s.browser.stored with
    | some m =>
        { s with session := { member := some m, loading := false, isAuthenticated := true } }
    | none =>
        let p := getCurrentMember s.browser meOut
        match p.2 with
        | .ok m =>
            { browser := p.1
              session := { member := some m, loading := false, isAuthenticated := true } }
        | .error _ =>
            { browser := p.1
              session := { member := none, loading := false, isAuthenticated := false } }
  else
    { s with session := { s.session with loading := false } }

/-- The discriminated result AuthProvider.login returns. -/
inductive LoginResult where
  | success (member : Member)
  | failure (error : String)
deriving DecidableEq

/-- AuthProvider.login: calls requestAccess; on success sets the member and
the authenticated flag; on failure returns a failure result with the
rejection message (or a default) and touches no session field; loading ends
false either way. -/
def login (s : AppState) (email : String) (out : ApiResult LoginData) :
    AppState × LoginResult :=
  let p := requestAccess s.browser email out
  match p.2 with
  | .ok d =>
      ({ browser := p.1
         session := { member := some d.member, loading := false, isAuthenticated := true } },
       .success d.member)
  | .error r =>
      ({ browser := p.1, session := { s.session with loading := false } },
       .failure (jsOrStr (errMessage r) "Login failed. Please try again."))

/-- AuthProvider.logout: runs the logout service (which never throws), clears
the in-memory session and assigns window.location.href to the landing
page. -/
def logout (s : AppState) (out : ApiResult Unit) : AppState :=
  let b := logoutService s.browser out
  { browser := { b with pendingNav := some "/" }
    session := { member := none, loading := false, isAuthenticated := false } }

/-- AuthProvider.refreshMember: refetches the member and overwrites both the
cache and the in-memory member; rethrows the rejection on failure without
touching the authenticated flag. -/
def refreshMember (s : AppState) (out : ApiResult Member) :
    AppState × Except InterceptResult Member :=
  let p := getCurrentMember s.browser out
  match p.2 with
  | .ok m => ({ browser := p.1, session := { s.session with member := some m } }, .ok m)
  | .error r => ({ s with browser := p.1 }, .error r)

/-- The client states reachable from app boot. Boot starts from arbitrary
persisted browser state with the fresh AuthProvider session and runs
initializeAuth; afterwards the session operations run with arbitrary backend
outcomes; any page may trigger the interceptor with an arbitrary transport
error; and a pending full-page navigation settles by reloading the app
(fresh session, initializeAuth again). -/
inductive Reachable : AppState → Prop where
  | boot (b : Browser) (meOut : ApiResult Member) :
      Reachable (initializeAuth { browser := b, session := bootSession } meOut)
  | login_step (s : AppState) (email : String) (out : ApiResult LoginData)
      (h : Reachable s) : Reachable (login s email out).1
  | logout_step (s : AppState) (out : ApiResult Unit) (h : Reachable s) :
      Reachable (logout s out)
  | refresh_step (s : AppState) (out : ApiResult Member) (h : Reachable s) :
      Reachable (refreshMember s out).1
  | page_fetch_err (s : AppState) (e : AxiosError) (h : Reachable s) :
      Reachable { s with browser := (responseErrorHandler s.browser e).1 }
  | settle (s : AppState) (url : String) (meOut : ApiResult Member) (h : Reachable s)
      (hnav : s.browser.pendingNav = some url) :
      Reachable (initializeAuth
        { browser := { s.browser with pendingNav := none }, session := bootSession } meOut)

/-- The organization email domain the admin guard checks. -/
def orgDomain : String := "@paigeinnercircle.com"

/-- JS String.prototype.endsWith on whole strings: the character sequence of
p is a suffix of the character sequence of s. -/
def jsEndsWith (s p : String) : Bool := p.data.isSuffixOf s.data

/-- The guard condition of AdminRoute, with JS optional chaining made
explicit: tier equals admin, or the email (when both member and
email exist) ends with the organization domain. -/
def isAdminCheck (member : Option Member) : Bool :=
  (match member with
   | some m => m.membership_tier == some "admin"
   | none => false) ||
  (match member with
   | some m =>
       match m.email with
       | some em => jsEndsWith em orgDomain
       | none => false
   | none => false)

/-- What a route guard renders. -/
inductive RouteRender where
  | spinner
  | redirectAccess
  | accessDenied
  | content
deriving DecidableEq

/-- The AdminRoute guard: spinner while loading, redirect to the access page
when unauthenticated, protected content when the admin check passes, and an
inline access-denied block otherwise. -/
def AdminRoute (s : Session) : RouteRender :=
  if s.loading then .spinner
  else if !s.isAuthenticated then .redirectAccess
  else if isAdminCheck s.member then .content
  else .accessDenied

/-- validators.formatPhoneNumber: strip non-digits; if not exactly 10 digits
remain, return the input unchanged; otherwise format as (XXX) XXX-XXXX. -/
def formatPhoneNumber (phone : String) : String :=
  let cleaned := phone.data.filter Char.isDigit
  if cleaned.length ≠ 10 then phone
  else
    "(" ++ (cleaned.take 3).asString ++ ") " ++ ((cleaned.drop 3).take 3).asString
      ++ "-" ++ (cleaned.drop 6).asString

namespace API_ENDPOINTS

/-- LEGACY_PASS.PREVIEW of src/frontend/src/utils/constants.js. -/
def LEGACY_PASS_PREVIEW (token : String) : String := "/api/legacy-pass/preview/" ++ token

/-- LEGACY_PASS.FULL of src/frontend/src/utils/constants.js. -/
def LEGACY_PASS_FULL (token : String) : String := "/api/legacy-pass/full/" ++ token

end API_ENDPOINTS

namespace API_ENDPOINTS_V2

/-- LEGACY_PASS.PREVIEW of the second constants version (packed with
src/frontend/src/utils/helpers.js). -/
def LEGACY_PASS_PREVIEW (token : String) : String := "/api/legacy-pass/preview/" ++ token

/-- LEGACY_PASS.FULL of the second constants version. -/
def LEGACY_PASS_FULL (token : String) : String := "/api/legacy-pass/" ++ token

/-- LEGACY_PASS.DOWNLOAD_PDF of the second constants version. -/
def LEGACY_PASS_DOWNLOAD_PDF (token : String) : String :=
  "/api/legacy-pass/" ++ token ++ "/download"

end API_ENDPOINTS_V2

/-! Concrete example values used by witnesses and counterexamples. -/

/-- A well-formed vip member with a non-organization email. -/
def vipMemberEx : Member :=
  { full_name := "Ava Stone"
    email := some "ava@gmail.com"
    membership_tier := some "vip"
    membership_number := some "IC-042"
    has_logged_in := true }

/-- An admin-tier member whose JSON object has no email field. -/
def adminNoEmailEx : Member :=
  { full_name := "Ops Root"
    email := none
    membership_tier := some "admin"
    membership_number := none
    has_logged_in := false }

/-- An admin-tier member with an organization email. -/
def adminMemberEx : Member :=
  { full_name := "Paige Admin"
    email := some "ops@paigeinnercircle.com"
    membership_tier := some "admin"
    membership_number := some "IC-001"
    has_logged_in := true }

/-- A browser with a live token and a cached member. -/
def loggedInBrowserEx : Browser :=
  { cookie := some "tok0", stored := some vipMemberEx, pendingNav := none }

/-- A browser with no token cookie but a present, well-formed cached member. -/
def staleCacheBrowserEx : Browser :=
  { cookie := none, stored := some vipMemberEx, pendingNav := none }

/-- A full client state with an authenticated session. -/
def loggedInStateEx : AppState :=
  { browser := loggedInBrowserEx
    session := { member := some vipMemberEx, loading := false, isAuthenticated := true } }

/-- A 401 error response. -/
def r401Ex : HttpResponse :=
  { status := 401, data := { detail := some "Could not validate credentials" } }

/-- A 401 transport error as seen on a member data fetch. -/
def e401Ex : AxiosError :=
  { url := "/api/rsvp/me"
    response := some r401Ex
    request := true
    message := "Request failed with status code 401" }

/-- A 401 transport error on the request-access endpoint. -/
def e401LoginEx : AxiosError :=
  { url := "/api/auth/request-access"
    response := some r401Ex
    request := true
    message := "Request failed with status code 401" }

/-- A 500 transport error. -/
def e500Ex : AxiosError :=
  { url := "/api/events/current"
    response := some { status := 500, data := { detail := some "Internal server error" } }
    request := true
    message := "Request failed with status code 500" }

/-! Helper lemmas shared by the claim theorems. -/

/-- The response interceptor either leaves the browser untouched or (the 401
branch) records the forced navigation to the access page. -/
theorem responseErrorHandler_browser (b : Browser) (e : AxiosError) :
    (responseErrorHandler b e).1 = b ∨
      (responseErrorHandler b e).1.pendingNav = some "/access" := by
  obtain ⟨url, resp, req, msg⟩ := e
  cases resp with
  | none => cases req <;> simp [responseErrorHandler]
  | some r =>
      by_cases h : r.status = 401 <;> simp [responseErrorHandler, h]

/-- If initialization from a fresh session leaves no cookie, the resulting
session is unauthenticated. -/
theorem initializeAuth_noCookie (b : Browser) (meOut : ApiResult Member) :
    (initializeAuth { browser := b, session := bootSession } meOut).browser.cookie = none →
    (initializeAuth { browser := b, session := bootSession } meOut).session.isAuthenticated
      = false := by
  intro hc
  obtain ⟨ck, st, pn⟩ := b
  cases ck with
  | none => simp [initializeAuth, checkAuth, bootSession]
  | some t =>
      cases st with
      | some m => simp [initializeAuth, checkAuth] at hc
      | none =>
          cases meOut with
          | ok m => simp [initializeAuth, checkAuth, getCurrentMember] at hc
          | err e => simp [initializeAuth, checkAuth, getCurrentMember]

/-- jsOrStr never returns the empty string when its default is non-empty. -/
theorem jsOrStr_ne_empty (a b : String) (hb : b ≠ "") : jsOrStr a b ≠ "" := by
  unfold jsOrStr
  split
  · exact hb
  · assumption

/-! Claim theorems. -/

/-- C1: every session state reachable from app boot with no pending
full-page navigation in which the persisted token cookie is absent has
isAuthenticated false, regardless of the cached member profile in local
storage (the boot constructor admits any cached profile, a present
well-formed member included). -/
theorem noCookie_not_authenticated (s : AppState) (h : Reachable s) :
    s.browser.pendingNav = none → s.browser.cookie = none →
    s.session.isAuthenticated = false := by
  induction h with
  | boot b meOut =>
      intro _ hc
      exact initializeAuth_noCookie b meOut hc
  | login_step s email out h ih =>
      intro hn hc
      cases out with
      | ok d => simp [login, requestAccess] at hc
      | err e =>
          simp only [login, requestAccess] at hn hc ⊢
          rcases responseErrorHandler_browser s.browser e with heq | hnav
          · rw [heq] at hn hc
            exact ih hn hc
          · rw [hnav] at hn
            exact Option.noConfusion hn
  | logout_step s out h ih =>
      intro _ _
      simp [logout]
  | refresh_step s out h ih =>
      intro hn hc
      cases out with
      | ok m =>
          simp only [refreshMember, getCurrentMember] at hn hc ⊢
          exact ih hn hc
      | err e =>
          simp only [refreshMember, getCurrentMember] at hn hc ⊢
          rcases responseErrorHandler_browser s.browser e with heq | hnav
          · rw [heq] at hn hc
            exact ih hn hc
          · rw [hnav] at hn
            exact Option.noConfusion hn
  | page_fetch_err s e h ih =>
      intro hn hc
      simp only [] at hn hc ⊢
      rcases responseErrorHandler_browser s.browser e with heq | hnav
      · rw [heq] at hn hc
        exact ih hn hc
      · rw [hnav] at hn
        exact Option.noConfusion hn
  | settle s url meOut h hnav ih =>
      intro _ hc
      exact initializeAuth_noCookie _ meOut hc

/-- C1 witness: boot from a browser with no cookie but a present,
well-formed cached member leaves the session unauthenticated. -/
theorem noCookie_not_authenticated_witness :
    (initializeAuth { browser := staleCacheBrowserEx, session := bootSession }
      (ApiResult.ok vipMemberEx)).session.isAuthenticated = false :=
  noCookie_not_authenticated _
    (Reachable.boot staleCacheBrowserEx (ApiResult.ok vipMemberEx)) (by decide) (by decide)

/-- C2: for every browser state and every transport error carrying a
response of status 401 — whatever the endpoint `e.url` was — the response
interceptor itself removes the token cookie and the stored member and
forces a full-page navigation to the access page. -/
theorem interceptor_401_clears_session_state (b : Browser) (e : AxiosError)
    (r : HttpResponse) (hr : e.response = some r) (h401 : r.status = 401) :
    (responseErrorHandler b e).1.cookie = none ∧
    (responseErrorHandler b e).1.stored = none ∧
    (responseErrorHandler b e).1.pendingNav = some "/access" := by
  obtain ⟨url, resp, req, msg⟩ := e
  subst hr
  simp [responseErrorHandler, h401]

/-- C2 witness: a 401 on a member data fetch clears a logged-in browser. -/
theorem interceptor_401_clears_session_state_witness :
    (responseErrorHandler loggedInBrowserEx e401Ex).1.cookie = none ∧
    (responseErrorHandler loggedInBrowserEx e401Ex).1.stored = none ∧
    (responseErrorHandler loggedInBrowserEx e401Ex).1.pendingNav = some "/access" :=
  interceptor_401_clears_session_state loggedInBrowserEx e401Ex r401Ex rfl rfl

/-- C7: every failed call — error response, network error with no response,
or request-construction error — is rejected by the response interceptor in
the normalized status/message/data shape, never as the native transport
error. -/
theorem interceptor_always_normalized (b : Browser) (e : AxiosError) :
    ∃ ne : NormalizedError,
      (responseErrorHandler b e).2 = InterceptResult.normalized ne := by
  obtain ⟨url, resp, req, msg⟩ := e
  cases resp with
  | none => cases req <;> exact ⟨_, rfl⟩
  | some r => exact ⟨_, rfl⟩

/-- An authenticated, resolved session holding the vip member. -/
def vipSessionEx : Session :=
  { member := some vipMemberEx, loading := false, isAuthenticated := true }

/-- An authenticated, resolved session holding the admin member. -/
def adminSessionEx : Session :=
  { member := some adminMemberEx, loading := false, isAuthenticated := true }

/-- An authenticated, resolved session whose member has no email field and
admin tier. -/
def adminNoEmailSessionEx : Session :=
  { member := some adminNoEmailEx, loading := false, isAuthenticated := true }

/-- An authenticated, resolved session with a null member. -/
def noMemberSessionEx : Session :=
  { member := none, loading := false, isAuthenticated := true }

/-- C3: in an authenticated, non-loading session, a member of tier vip whose
email does not end with the organization domain gets the inline
access-denied rendering (so neither the protected content nor a redirect),
and a member of tier admin gets the protected content. -/
theorem AdminRoute_vip_denied_admin_allowed (s : Session) (m : Member)
    (hl : s.loading = false) (ha : s.isAuthenticated = true) (hm : s.member = some m) :
    (m.membership_tier = some "vip" →
      (∀ em, m.email = some em → jsEndsWith em orgDomain = false) →
      AdminRoute s = RouteRender.accessDenied) ∧
    (m.membership_tier = some "admin" → AdminRoute s = RouteRender.content) := by
  constructor
  · intro ht he
    have hadmin : isAdminCheck s.member = false := by
      rw [hm]
      unfold isAdminCheck
      cases hme : m.email with
      | none => simp [ht, hme]
      | some em => simp [ht, hme, he em hme]
    simp [AdminRoute, hl, ha, hadmin]
  · intro ht
    have hadmin : isAdminCheck s.member = true := by
      rw [hm]
      unfold isAdminCheck
      simp [ht]
    simp [AdminRoute, hl, ha, hadmin]

/-- C3 witness: the concrete vip member with a gmail address is denied and
the concrete admin member sees the content. -/
theorem AdminRoute_vip_denied_admin_allowed_witness :
    AdminRoute vipSessionEx = RouteRender.accessDenied ∧
    AdminRoute adminSessionEx = RouteRender.content :=
  ⟨(AdminRoute_vip_denied_admin_allowed vipSessionEx vipMemberEx rfl rfl rfl).1 rfl
      (by
        intro em hem
        have h : some "ava@gmail.com" = some em := hem
        injection h with h2
        rw [← h2]
        decide),
   (AdminRoute_vip_denied_admin_allowed adminSessionEx adminMemberEx rfl rfl rfl).2 rfl⟩

/-- C10 counterexample: an authenticated, non-loading session whose member
object has no email field renders the protected content when the tier is
admin, so the guard does not always render access-denied for members
without an email. -/
theorem AdminRoute_no_email_admin_counterexample :
    adminNoEmailSessionEx.loading = false ∧
    adminNoEmailSessionEx.isAuthenticated = true ∧
    adminNoEmailSessionEx.member.map Member.email = some none ∧
    AdminRoute adminNoEmailSessionEx = RouteRender.content := by
  refine ⟨rfl, rfl, rfl, ?_⟩
  decide

/-- C10 amended: in an authenticated, non-loading session, when the member
is null, or has no email field and a tier other than admin, the guard
evaluates totally (AdminRoute is a total function) and renders the
access-denied state. -/
theorem AdminRoute_missing_member_or_email_denied (s : Session)
    (hl : s.loading = false) (ha : s.isAuthenticated = true)
    (hm : s.member = none ∨
      ∃ m, s.member = some m ∧ m.email = none ∧ m.membership_tier ≠ some "admin") :
    AdminRoute s = RouteRender.accessDenied := by
  have hadmin : isAdminCheck s.member = false := by
    rcases hm with hnone | ⟨m, hsm, hme, hmt⟩
    · rw [hnone]; rfl
    · rw [hsm]
      unfold isAdminCheck
      simp [hme, hmt]
  simp [AdminRoute, hl, ha, hadmin]

/-- C10 amended witness: the null-member session is denied. -/
theorem AdminRoute_missing_member_or_email_denied_witness :
    AdminRoute noMemberSessionEx = RouteRender.accessDenied :=
  AdminRoute_missing_member_or_email_denied noMemberSessionEx rfl rfl (Or.inl rfl)

/-- C4: after every login whose request-access call succeeds with a token
and a member, the cookie holds exactly that token, local storage holds
exactly that member, the session is authenticated, and the returned
discriminated result is success with that member. -/
theorem login_success_postcondition (s : AppState) (email : String) (d : LoginData) :
    (login s email (ApiResult.ok d)).1.browser.cookie = some d.access_token ∧
    (login s email (ApiResult.ok d)).1.browser.stored = some d.member ∧
    (login s email (ApiResult.ok d)).1.session.isAuthenticated = true ∧
    (login s email (ApiResult.ok d)).2 = LoginResult.success d.member := by
  simp [login, requestAccess]

/-- C5: after every logout, whether the backend logout call succeeded or
failed with any transport error, the cookie and the stored member are both
absent, the session is unauthenticated with no member, and a full
navigation to the landing page has been assigned. -/
theorem logout_postcondition (s : AppState) (out : ApiResult Unit) :
    (logout s out).browser.cookie = none ∧
    (logout s out).browser.stored = none ∧
    (logout s out).session.isAuthenticated = false ∧
    (logout s out).session.member = none ∧
    (logout s out).browser.pendingNav = some "/" := by
  cases out <;> simp [logout, logoutService]

/-- C6 counterexample: a login that fails because request-access answered
401 does not leave the persisted state unchanged — the interceptor clears
the cookie and the cached member of a previously logged-in browser. -/
theorem login_401_failure_changes_state :
    (login loggedInStateEx "ava@gmail.com" (ApiResult.err e401LoginEx)).1.browser.cookie
        ≠ loggedInStateEx.browser.cookie ∧
    (login loggedInStateEx "ava@gmail.com" (ApiResult.err e401LoginEx)).1.browser.stored
        ≠ loggedInStateEx.browser.stored := by
  decide

/-- C6 amended: every failed login returns a failure result with a
non-empty message rather than throwing, and leaves the in-memory member and
authenticated flag unchanged; the cookie and cached profile are unchanged
when the failure is not a 401 response (a 401 failure clears them through
the HTTP layer). -/
theorem login_failure_result (s : AppState) (email : String) (e : AxiosError) :
    (∃ msg, (login s email (ApiResult.err e)).2 = LoginResult.failure msg ∧ msg ≠ "") ∧
    (login s email (ApiResult.err e)).1.session.isAuthenticated
        = s.session.isAuthenticated ∧
    (login s email (ApiResult.err e)).1.session.member = s.session.member ∧
    (is401 e = false →
      (login s email (ApiResult.err e)).1.browser.cookie = s.browser.cookie ∧
      (login s email (ApiResult.err e)).1.browser.stored = s.browser.stored) := by
  refine ⟨⟨_, rfl, jsOrStr_ne_empty _ _ (by decide)⟩, rfl, rfl, ?_⟩
  intro hne
  obtain ⟨url, resp, req, msg⟩ := e
  cases resp with
  | none => cases req <;> exact ⟨rfl, rfl⟩
  | some r =>
      simp [is401] at hne
      simp [login, requestAccess, responseErrorHandler, hne]

/-- C6 amended witness: a 500 failure leaves the cookie of the logged-in
state unchanged. -/
theorem login_failure_result_witness :
    is401 e500Ex = false ∧
    (login loggedInStateEx "ava@gmail.com" (ApiResult.err e500Ex)).1.browser.cookie
      = loggedInStateEx.browser.cookie :=
  ⟨by decide,
   ((login_failure_result loggedInStateEx "ava@gmail.com" e500Ex).2.2.2 (by decide)).1⟩

/-- C8 counterexample: the endpoint map of utils/constants.js generates
/api/legacy-pass/full/abc for the full legacy-pass lookup of token abc, not
/api/legacy-pass/abc as the claim states. -/
theorem legacy_pass_full_path_counterexample :
    API_ENDPOINTS.LEGACY_PASS_FULL "abc" ≠ "/api/legacy-pass/abc" := by
  decide

/-- C8 amended: both endpoint maps generate /api/legacy-pass/preview/ t for
the preview; the second constants version generates /api/legacy-pass/ t for
the full lookup (and /api/legacy-pass/ t /download for the download) as the
spec inventory lists, while the utils/constants.js map generates
/api/legacy-pass/full/ t. -/
theorem legacy_pass_paths_amended (t : String) :
    API_ENDPOINTS.LEGACY_PASS_PREVIEW t = "/api/legacy-pass/preview/" ++ t ∧
    API_ENDPOINTS_V2.LEGACY_PASS_PREVIEW t = "/api/legacy-pass/preview/" ++ t ∧
    API_ENDPOINTS_V2.LEGACY_PASS_FULL t = "/api/legacy-pass/" ++ t ∧
    API_ENDPOINTS_V2.LEGACY_PASS_DOWNLOAD_PDF t = "/api/legacy-pass/" ++ t ++ "/download" ∧
    API_ENDPOINTS.LEGACY_PASS_FULL t = "/api/legacy-pass/full/" ++ t :=
  ⟨rfl, rfl, rfl, rfl, rfl⟩

/-- C9: the phone formatter maps 5551234567 to (555) 123-4567, and returns
every input with exactly nine digits unchanged. -/
theorem formatPhoneNumber_spec :
    formatPhoneNumber "5551234567" = "(555) 123-4567" ∧
    ∀ s : String, (s.data.filter Char.isDigit).length = 9 → formatPhoneNumber s = s := by
  constructor
  · rfl
  · intro s h
    simp [formatPhoneNumber, h]

/-- C9 witness: the ten-digit example formats and a nine-digit input is
returned unchanged. -/
theorem formatPhoneNumber_spec_witness :
    formatPhoneNumber "5551234567" = "(555) 123-4567" ∧
    formatPhoneNumber "555123456" = "555123456" :=
  ⟨formatPhoneNumber_spec.1, formatPhoneNumber_spec.2 "555123456" (by decide)⟩

end EventClient
